import Mathlib

/-!
# Verification of the page-verification harness (verify_setup.py, verify_visualization.py)

Shallow embedding of the two Playwright-driven verification scripts.

Each call into the browser-automation library is modelled as a field of an
environment `Env` recording the outcome the library would deliver for that
call in a given run: `Except.ok` for a successful call (carrying the value the
library returns), `Except.error e` for a call that raises exception `e`.

The observable behaviour of a run is a `RunState`:
  * `log`      — the lines printed to stdout, in order;
  * `files`    — the files on disk written by the run (path, content), where a
                 later write to the same path overwrites the earlier one;
  * `trace`    — the ordered list of library calls issued (for the temporal
                 claims about ordering of navigation, checks and captures);
  * `closedCount`  — how many times `browser.close()` was invoked;
  * `driverStops`  — how many times the `with sync_playwright()` context
                 manager stopped the driver (its implicit cleanup, which runs
                 on all exit paths of the `with` block).

Each script is a function `Env → RunState × Option String`; the second
component is `some e` when the script lets exception `e` escape to its
caller, `none` when it terminates normally.
-/

/-- One library call issued by a run, in program order. -/
inductive Event where
  | launch
  | newPage
  | registerObserver (kind : String)
  | navigate (url : String)
  | waitLoad (policy : String)
  | sleep (secs : Nat)
  | checkTitle
  | checkVisible (selector : String)
  | countQuery (selector : String)
  | capturePage (path : String) (fullPage : Bool)
  | captureElement (selector : String) (path : String)
  | closeBrowser
  | stopDriver
  deriving DecidableEq, Repr

/-- Outcomes the browser-automation library delivers for each call of a run.
`Except.error e` models the library call raising exception `e`. -/
structure Env where
  launchResult : Except String Unit
  newPageResult : Except String Unit
  gotoResult : Except String Unit
  waitResult : Except String Unit
  titleResult : Except String String
  isVisible : String → Except String Bool
  countOf : String → Except String Nat
  pageShot : String → Bool → Except String String
  elemShot : String → String → Except String String

/-- Observable state of a run: printed log lines, files written to disk,
the trace of library calls, and the resource-release counters. -/
structure RunState where
  log : List String
  files : List (String × String)
  trace : List Event
  closedCount : Nat
  driverStops : Nat
  deriving Repr

def initState : RunState :=
  { log := [], files := [], trace := [], closedCount := 0, driverStops := 0 }

/-- Writing a file: a later write to the same path overwrites the earlier one. -/
def writeFile (files : List (String × String)) (path content : String) :
    List (String × String) :=
  (path, content) :: files.filter (fun pc => pc.1 ≠ path)

/-- Content of the file at `path`, if it exists. -/
def getFile (files : List (String × String)) (path : String) : Option String :=
  (files.find? (fun pc => pc.1 == path)).map Prod.snd

/-- Record a library call in the trace. -/
def emit (s : RunState) (e : Event) : RunState :=
  { s with trace := s.trace ++ [e] }

/-- Print one line to the log. -/
def logLine (s : RunState) (l : String) : RunState :=
  { s with log := s.log ++ [l] }

/-- Run a fallible library call: on failure the exception propagates
(second component `some e`), on success continue with the returned value. -/
def attempt {α : Type} (r : Except String α) (s : RunState)
    (k : α → RunState × Option String) : RunState × Option String :=
  match r with
  | Except.error e => (s, some e)
  | Except.ok a => k a

/-- The target URL both scripts navigate to (verify_setup.py line 9,
verify_visualization.py line 10). -/
def targetUrl : String := "http://localhost:5173"

/-- verify_setup.py lines 5-6: `page.on("console", ...)` and
`page.on("pageerror", ...)` — observer registration, before any navigation. -/
def registerObservers (s : RunState) : RunState :=
  emit (emit s (Event.registerObserver "console")) (Event.registerObserver "pageerror")

/-- verify_setup.py lines 8-28: the body of the `try:` block of `verify`.
Returns the state reached together with the exception raised inside the
block, if any (to be caught by the `except` clause). -/
def verifyTry (env : Env) (s : RunState) : RunState × Option String :=
  let s := emit s (Event.navigate targetUrl)
  attempt env.gotoResult s fun _ =>
    let s := emit s (Event.waitLoad "networkidle")
    attempt env.waitResult s fun _ =>
      let s := emit s Event.checkTitle
      attempt env.titleResult s fun title =>
        let s := logLine s ("Page title: " ++ title)
        let s := emit s (Event.checkVisible ".sidebar")
        attempt (env.isVisible ".sidebar") s fun sidebarVisible =>
          let s := if sidebarVisible then logLine s "Sidebar is visible"
                   else logLine s "Sidebar is NOT visible"
          let s := emit s (Event.checkVisible "#num-a")
          attempt (env.isVisible "#num-a") s fun sliderVisible =>
            let s := if sliderVisible then logLine s "Slider A is visible" else s
            let s := emit s (Event.capturePage "verification.png" false)
            attempt (env.pageShot "verification.png" false) s fun data =>
              let s := { s with files := writeFile s.files "verification.png" data }
              (s, none)

/-- verify_setup.py lines 4-31: `verify(page)`. Registers the observers,
runs the `try:` body, and catches any exception from it, printing
`Error during verification: <e>` (line 31). Never raises. -/
def verify (env : Env) (s : RunState) : RunState × Option String :=
  let s := registerObservers s
  match verifyTry env s with
  | (s, none) => (s, none)
  | (s, some e) => (logLine s ("Error during verification: " ++ e), none)

/-- verify_setup.py lines 33-42, the body of the `with sync_playwright()`
block of `__main__`: launch, new_page, verify, `browser.close()`.
`browser.close()` (line 42) runs only if nothing before it raised. -/
def verifySetupBody (env : Env) : RunState × Option String :=
  let s := emit initState Event.launch
  attempt env.launchResult s fun _ =>
    let s := emit s Event.newPage
    attempt env.newPageResult s fun _ =>
      match verify env s with
      | (s, none) =>
        let s := emit s Event.closeBrowser
        ({ s with closedCount := s.closedCount + 1 }, none)
      | (s, some e) => (s, some e)

/-- The `with sync_playwright() as p:` context manager: its exit handler
stops the driver on every exit path of the block, normal or exceptional,
and re-raises any exception. -/
def stopDriver (r : RunState × Option String) : RunState × Option String :=
  ({ r.1 with trace := r.1.trace ++ [Event.stopDriver],
              driverStops := r.1.driverStops + 1 }, r.2)

/-- verify_setup.py `__main__` (lines 33-42): the whole run. -/
def verifySetupMain (env : Env) : RunState × Option String :=
  stopDriver (verifySetupBody env)

/-- verify_visualization.py lines 5-23, the body of the
`with sync_playwright()` block: launch, new_page, goto, sleep(5),
full-page screenshot, `#demo-svg` count query, element screenshot when the
count is positive, `browser.close()`. There is no try/except: any raised
exception propagates, skipping everything after it including the close. -/
def verifyVisualizationBody (env : Env) : RunState × Option String :=
  let s := emit initState Event.launch
  attempt env.launchResult s fun _ =>
    let s := emit s Event.newPage
    attempt env.newPageResult s fun _ =>
      let s := emit s (Event.navigate targetUrl)
      attempt env.gotoResult s fun _ =>
        let s := emit s (Event.sleep 5)
        let s := emit s (Event.capturePage "verification.png" true)
        attempt (env.pageShot "verification.png" true) s fun data =>
          let s := { s with files := writeFile s.files "verification.png" data }
          let s := emit s (Event.countQuery "#demo-svg")
          attempt (env.countOf "#demo-svg") s fun n =>
            if n > 0 then
              let s := emit s (Event.captureElement "#demo-svg" "verification_svg.png")
              attempt (env.elemShot "#demo-svg" "verification_svg.png") s fun data2 =>
                let s := { s with files := writeFile s.files "verification_svg.png" data2 }
                let s := emit s Event.closeBrowser
                ({ s with closedCount := s.closedCount + 1 }, none)
            else
              let s := emit s Event.closeBrowser
              ({ s with closedCount := s.closedCount + 1 }, none)

/-- verify_visualization.py `verify_visualization()` (lines 4-23):
the whole run, wrapped in the `with sync_playwright()` context manager. -/
def verify_visualization (env : Env) : RunState × Option String :=
  stopDriver (verifyVisualizationBody env)

/-- Modelled from the spec: the DOM state the browser-automation library's
visibility query consults. The query itself (`locator(sel).is_visible()`)
is library code, not part of this repository's sources. -/
structure Dom where
  present : String → Bool
  hidden : String → Bool

/-- Modelled from the spec: `check_visible(page, selector) -> bool`:
queries the DOM; returns false (not an error) if the element is absent or
hidden. This is the harness operation realised by the library call
`page.locator(selector).is_visible()` at verify_setup.py lines 17 and 24,
whose implementation is not in src/. -/
def check_visible (dom : Dom) (selector : String) : Bool :=
  dom.present selector && !dom.hidden selector

/-- Is this event a navigation? -/
def Event.isNavigate : Event → Bool
  | Event.navigate _ => true
  | _ => false

/-- Is this event an observer registration? -/
def Event.isRegisterObserver : Event → Bool
  | Event.registerObserver _ => true
  | _ => false

/-- Is this event a DOM check (title query, visibility query, count query)? -/
def Event.isCheck : Event → Bool
  | Event.checkTitle => true
  | Event.checkVisible _ => true
  | Event.countQuery _ => true
  | _ => false

/-- Is this event a screenshot capture (full page or element-scoped)? -/
def Event.isCapture : Event → Bool
  | Event.capturePage _ _ => true
  | Event.captureElement _ _ => true
  | _ => false

/-- A capture event targets one of the two fixed relative output paths:
page-level captures go to verification.png, element-scoped captures to
verification_svg.png. Non-capture events satisfy this vacuously. -/
def Event.captureWellNamed : Event → Bool
  | Event.capturePage p _ => p == "verification.png"
  | Event.captureElement _ p => p == "verification_svg.png"
  | _ => true

/-- An environment in which every library call succeeds: the page is served
with title "Demo", `.sidebar` and `#num-a` are visible, `#demo-svg` is
present, and screenshots produce the (non-empty) image bytes "PNG". -/
def okEnv : Env :=
  { launchResult := Except.ok ()
    newPageResult := Except.ok ()
    gotoResult := Except.ok ()
    waitResult := Except.ok ()
    titleResult := Except.ok "Demo"
    isVisible := fun _ => Except.ok true
    countOf := fun _ => Except.ok 1
    pageShot := fun _ _ => Except.ok "PNG"
    elemShot := fun _ _ => Except.ok "PNG" }

/-- Like `okEnv`, but the selector `#demo-svg` matches zero nodes. -/
def envSkip : Env :=
  { okEnv with countOf := fun _ => Except.ok 0 }

/-- Like `okEnv`, but the target page is unreachable: navigation raises. -/
def envUnreachable : Env :=
  { okEnv with gotoResult := Except.error "net::ERR_CONNECTION_REFUSED" }

/-- Like `okEnv`, but `#num-a` is absent or hidden: its visibility query
returns false, while `.sidebar` stays visible. -/
def envHiddenSlider : Env :=
  { okEnv with isVisible := fun sel => Except.ok (sel == ".sidebar") }

/-! ## Helper lemmas shared between claims -/

/-- `verify` never lets an exception escape: both branches of its
try/except return normally. -/
lemma verify_snd (env : Env) (s : RunState) : (verify env s).2 = none := by
  unfold verify
  dsimp only
  split <;> rfl

/-- The try-block of `verify` never touches the close counter nor the
driver-stop counter. -/
lemma verifyTry_counts (env : Env) (s : RunState) :
    ((verifyTry env s).1).closedCount = s.closedCount ∧
    ((verifyTry env s).1).driverStops = s.driverStops := by
  unfold verifyTry attempt
  rcases env.gotoResult with e | u
  · simp [emit]
  rcases env.waitResult with e | u
  · simp [emit]
  rcases env.titleResult with e | t
  · simp [emit]
  rcases env.isVisible ".sidebar" with e | b
  · simp [emit, logLine]
  rcases env.isVisible "#num-a" with e | v
  · cases b <;> simp [emit, logLine]
  rcases env.pageShot "verification.png" false with e | d
  · cases b <;> cases v <;> simp [emit, logLine]
  · cases b <;> cases v <;> simp [emit, logLine]

/-- `verify` never touches the close counter nor the driver-stop counter
(its only effects are log lines, trace entries and the screenshot file). -/
lemma verify_counts (env : Env) (s : RunState) :
    ((verify env s).1).closedCount = s.closedCount ∧
    ((verify env s).1).driverStops = s.driverStops := by
  have h := verifyTry_counts env (registerObservers s)
  unfold verify
  rcases hv : verifyTry env (registerObservers s) with ⟨s1, o⟩
  rw [hv] at h
  cases o <;> simp_all [logLine, registerObservers, emit]

/-! ## C1: exceptions caught at the top level of each run -/

/-- C1 (counterexample): the claim "any exception raised during the
navigate/check/capture phase is caught at the top level of that run ...
the runner never raises past its own boundary, in particular when the
target page is unreachable" is false for verify_visualization: with the
target page unreachable, the navigation exception escapes to the caller,
and no log line reporting the failure is produced. -/
theorem C1_counterexample :
    (verify_visualization envUnreachable).2 = some "net::ERR_CONNECTION_REFUSED" ∧
    (verify_visualization envUnreachable).1.log = [] := by
  exact ⟨rfl, rfl⟩

/-- C1 (amended): in verify_setup, `verify` catches every exception raised
in its navigate/check/capture phase, reports it as the log line
`Error during verification: <e>`, and never raises past its boundary.
verify_visualization has no such handler: an exception raised by its
navigation (e.g. an unreachable target page) propagates to its caller. -/
theorem C1_amended (env : Env) (s : RunState) :
    (verify env s).2 = none ∧
    (∀ e, (verifyTry env (registerObservers s)).2 = some e →
      ("Error during verification: " ++ e) ∈ (verify env s).1.log) ∧
    (∀ e, env.launchResult = Except.ok () → env.newPageResult = Except.ok () →
      env.gotoResult = Except.error e → (verify_visualization env).2 = some e) := by
  refine ⟨verify_snd env s, ?_, ?_⟩
  · intro e he
    rcases hv : verifyTry env (registerObservers s) with ⟨s1, o⟩
    rw [hv] at he
    cases o with
    | none => simp at he
    | some e1 =>
      simp at he
      subst he
      simp [verify, hv, logLine]
  · intro e hl hn hg
    simp [verify_visualization, verifyVisualizationBody, stopDriver, attempt, hl, hn, hg]

/-- C1 (witness): the amended theorem applied at the unreachable-page
environment from the empty initial state. -/
theorem C1_amended_witness :
    (verify envUnreachable initState).2 = none ∧
    ("Error during verification: net::ERR_CONNECTION_REFUSED") ∈
      (verify envUnreachable initState).1.log ∧
    (verify_visualization envUnreachable).2 = some "net::ERR_CONNECTION_REFUSED" := by
  have h := C1_amended envUnreachable initState
  exact ⟨h.1, h.2.1 "net::ERR_CONNECTION_REFUSED" rfl,
         h.2.2 "net::ERR_CONNECTION_REFUSED" rfl rfl rfl⟩

/-- Outcome of the `with`-block body of verify_visualization, on every
branch: the browser is closed exactly once when no step raises, and zero
times when a step raises; the body itself never stops the driver. -/
lemma visBody_counts (env : Env) :
    ((verifyVisualizationBody env).2 = none →
        (verifyVisualizationBody env).1.closedCount = 1) ∧
    (∀ e, (verifyVisualizationBody env).2 = some e →
        (verifyVisualizationBody env).1.closedCount = 0) ∧
    (verifyVisualizationBody env).1.driverStops = 0 := by
  unfold verifyVisualizationBody
  cases hl : env.launchResult with
  | error e => simp [attempt, hl, emit, initState]
  | ok u =>
    cases hn : env.newPageResult with
    | error e => simp [attempt, hl, hn, emit, initState]
    | ok u2 =>
      cases hg : env.gotoResult with
      | error e => simp [attempt, hl, hn, hg, emit, initState]
      | ok u3 =>
        cases hs : env.pageShot "verification.png" true with
        | error e => simp [attempt, hl, hn, hg, hs, emit, initState]
        | ok d =>
          cases hc : env.countOf "#demo-svg" with
          | error e => simp [attempt, hl, hn, hg, hs, hc, emit, initState]
          | ok n =>
            by_cases h0 : n > 0
            · cases he : env.elemShot "#demo-svg" "verification_svg.png" with
              | error e => simp [attempt, hl, hn, hg, hs, hc, he, h0, emit, initState]
              | ok d2 => simp [attempt, hl, hn, hg, hs, hc, he, h0, emit, initState]
            · simp [attempt, hl, hn, hg, hs, hc, h0, emit, initState]

/-- Outcome of the `with`-block body of verify_setup's `__main__` once
launch and page-open succeed: `verify` catches every later exception, so
`browser.close()` always runs, exactly once. -/
lemma setupBody_counts (env : Env) (hl : env.launchResult = Except.ok ())
    (hn : env.newPageResult = Except.ok ()) :
    (verifySetupBody env).1.closedCount = 1 ∧ (verifySetupBody env).2 = none ∧
    (verifySetupBody env).1.driverStops = 0 := by
  have h2 := verify_snd env (emit (emit initState Event.launch) Event.newPage)
  have h3 := verify_counts env (emit (emit initState Event.launch) Event.newPage)
  unfold verifySetupBody
  rcases hv : verify env (emit (emit initState Event.launch) Event.newPage) with ⟨s1, o⟩
  rw [hv] at h2 h3
  simp at h2
  subst h2
  simp only [attempt, hl, hn]
  simp_all [emit, initState]

/-! ## C2: the browser session is closed on every exit path -/

/-- C2 (counterexample): the claim "the Session opened at launch is closed
exactly once on every exit path, normal or error — including when
navigation ... throws" is false for verify_visualization: with the target
page unreachable, the session is launched but `browser.close()` runs zero
times on that (exceptional) exit path. -/
theorem C2_counterexample :
    Event.launch ∈ (verify_visualization envUnreachable).1.trace ∧
    (verify_visualization envUnreachable).1.closedCount = 0 := by
  constructor
  · decide
  · rfl

/-- C2 (amended): in verify_setup's `__main__`, once launch and page-open
succeed, `browser.close()` is invoked exactly once on every exit path —
including when navigation, a check or the capture throws, because `verify`
catches those. In verify_visualization, `browser.close()` is invoked
exactly once only on runs where no step throws; on a run where a step
throws it is not invoked at all (only the `with sync_playwright()` exit
handler still stops the driver, on all paths of both scripts). -/
theorem C2_amended (env : Env) :
    (env.launchResult = Except.ok () → env.newPageResult = Except.ok () →
      (verifySetupMain env).1.closedCount = 1 ∧
      (verifySetupMain env).2 = none ∧
      (verifySetupMain env).1.driverStops = 1) ∧
    ((verify_visualization env).2 = none →
      (verify_visualization env).1.closedCount = 1) ∧
    (∀ e, (verify_visualization env).2 = some e →
      (verify_visualization env).1.closedCount = 0) ∧
    (verify_visualization env).1.driverStops = 1 := by
  have hv := visBody_counts env
  refine ⟨?_, ?_, ?_, ?_⟩
  · intro hl hn
    have hs := setupBody_counts env hl hn
    simp [verifySetupMain, stopDriver, hs.1, hs.2.1, hs.2.2]
  · intro h
    simp only [verify_visualization, stopDriver] at h ⊢
    exact hv.1 h
  · intro e h
    simp only [verify_visualization, stopDriver] at h ⊢
    exact hv.2.1 e h
  · simp [verify_visualization, stopDriver, hv.2.2]

/-- C2 (witness): the amended theorem applied at the all-success
environment and at the unreachable-page environment. -/
theorem C2_amended_witness :
    ((verifySetupMain okEnv).1.closedCount = 1 ∧
      (verifySetupMain okEnv).2 = none ∧
      (verifySetupMain okEnv).1.driverStops = 1) ∧
    (verify_visualization okEnv).1.closedCount = 1 ∧
    (verify_visualization envUnreachable).1.closedCount = 0 := by
  refine ⟨(C2_amended okEnv).1 rfl rfl, (C2_amended okEnv).2.1 rfl, ?_⟩
  exact (C2_amended envUnreachable).2.2.1 "net::ERR_CONNECTION_REFUSED" rfl

/-! ## C3: element-scoped capture with zero matching nodes -/

/-- C3 (counterexample): the claim "the capture is skipped and logged" is
false: with `#demo-svg` matching zero nodes (and everything else
succeeding), the capture is skipped and verification_svg.png is not
created, but the run's log is empty — nothing is logged about the skip. -/
theorem C3_counterexample :
    getFile (verify_visualization envSkip).1.files "verification_svg.png" = none ∧
    (verify_visualization envSkip).1.log = [] ∧
    (verify_visualization envSkip).2 = none := by
  exact ⟨rfl, rfl, rfl⟩

/-- C3 (amended): for every element-scoped capture whose selector matches
zero nodes, the capture is skipped silently — no element screenshot call
is issued, no log line is produced — it is not fatal, and the target file
verification_svg.png is not created; no exception surfaces from the run. -/
theorem C3_amended (env : Env) (hl : env.launchResult = Except.ok ())
    (hn : env.newPageResult = Except.ok ()) (hg : env.gotoResult = Except.ok ())
    (d : String) (hs : env.pageShot "verification.png" true = Except.ok d)
    (hc : env.countOf "#demo-svg" = Except.ok 0) :
    getFile (verify_visualization env).1.files "verification_svg.png" = none ∧
    (verify_visualization env).2 = none ∧
    (verify_visualization env).1.log = [] ∧
    (Event.captureElement "#demo-svg" "verification_svg.png") ∉
      (verify_visualization env).1.trace := by
  simp [verify_visualization, verifyVisualizationBody, stopDriver, attempt,
        hl, hn, hg, hs, hc, emit, initState, getFile, writeFile]

/-- C3 (witness): the amended theorem applied at the environment where
`#demo-svg` matches zero nodes. -/
theorem C3_amended_witness :
    getFile (verify_visualization envSkip).1.files "verification_svg.png" = none ∧
    (verify_visualization envSkip).2 = none ∧
    (verify_visualization envSkip).1.log = [] ∧
    (Event.captureElement "#demo-svg" "verification_svg.png") ∉
      (verify_visualization envSkip).1.trace :=
  C3_amended envSkip rfl rfl rfl "PNG" rfl rfl

/-! ## C4: observers registered before navigation -/

/-- C4 (counterexample): the claim "in every run, the console and
page-error observers are registered on the Page before any navigation is
issued" is false for verify_visualization: its run issues a navigation but
never registers any observer. -/
theorem C4_counterexample :
    ((verify_visualization okEnv).1.trace.all fun e => !e.isRegisterObserver) = true ∧
    Event.navigate targetUrl ∈ (verify_visualization okEnv).1.trace := by
  constructor
  · rfl
  · decide

/-- C4 (amended): in verify_setup's run the console and pageerror
observers are registered on the Page before any navigation is issued —
the pre-navigation prefix of its trace is exactly launch, page open, and
the two observer registrations. verify_visualization registers no
observers at all. -/
theorem C4_amended (env : Env) :
    (env.launchResult = Except.ok () → env.newPageResult = Except.ok () →
      (verifySetupMain env).1.trace.takeWhile (fun e => !e.isNavigate) =
        [Event.launch, Event.newPage, Event.registerObserver "console",
         Event.registerObserver "pageerror"]) ∧
    ((verify_visualization env).1.trace.all fun e => !e.isRegisterObserver) = true := by
  constructor
  · intro hl hn
    unfold verifySetupMain verifySetupBody verify verifyTry registerObservers
    cases hg : env.gotoResult with
    | error e =>
      simp [attempt, hl, hn, hg, stopDriver, emit, initState, logLine,
            List.takeWhile, Event.isNavigate]
    | ok u3 =>
      cases hw : env.waitResult with
      | error e =>
        simp [attempt, hl, hn, hg, hw, stopDriver, emit, initState, logLine,
              List.takeWhile, Event.isNavigate]
      | ok u4 =>
        cases ht : env.titleResult with
        | error e =>
          simp [attempt, hl, hn, hg, hw, ht, stopDriver, emit, initState, logLine,
                List.takeWhile, Event.isNavigate]
        | ok t =>
          cases hsb : env.isVisible ".sidebar" with
          | error e =>
            simp [attempt, hl, hn, hg, hw, ht, hsb, stopDriver, emit, initState,
                  logLine, List.takeWhile, Event.isNavigate]
          | ok b =>
            cases hsl : env.isVisible "#num-a" with
            | error e =>
              cases b <;>
                simp [attempt, hl, hn, hg, hw, ht, hsb, hsl, stopDriver, emit,
                      initState, logLine, List.takeWhile, Event.isNavigate]
            | ok v =>
              cases hps : env.pageShot "verification.png" false with
              | error e =>
                cases b <;> cases v <;>
                  simp [attempt, hl, hn, hg, hw, ht, hsb, hsl, hps, stopDriver,
                        emit, initState, logLine, List.takeWhile, Event.isNavigate]
              | ok d =>
                cases b <;> cases v <;>
                  simp [attempt, hl, hn, hg, hw, ht, hsb, hsl, hps, stopDriver,
                        emit, initState, logLine, List.takeWhile, Event.isNavigate]
  · unfold verify_visualization verifyVisualizationBody
    cases hl : env.launchResult with
    | error e =>
      simp [attempt, hl, stopDriver, emit, initState, Event.isRegisterObserver]
    | ok u =>
      cases hn : env.newPageResult with
      | error e =>
        simp [attempt, hl, hn, stopDriver, emit, initState, Event.isRegisterObserver]
      | ok u2 =>
        cases hg : env.gotoResult with
        | error e =>
          simp [attempt, hl, hn, hg, stopDriver, emit, initState,
                Event.isRegisterObserver]
        | ok u3 =>
          cases hs : env.pageShot "verification.png" true with
          | error e =>
            simp [attempt, hl, hn, hg, hs, stopDriver, emit, initState,
                  Event.isRegisterObserver]
          | ok d =>
            cases hc : env.countOf "#demo-svg" with
            | error e =>
              simp [attempt, hl, hn, hg, hs, hc, stopDriver, emit, initState,
                    Event.isRegisterObserver]
            | ok n =>
              by_cases h0 : n > 0
              · cases he : env.elemShot "#demo-svg" "verification_svg.png" with
                | error e =>
                  simp [attempt, hl, hn, hg, hs, hc, he, h0, stopDriver, emit,
                        initState, Event.isRegisterObserver]
                | ok d2 =>
                  simp [attempt, hl, hn, hg, hs, hc, he, h0, stopDriver, emit,
                        initState, Event.isRegisterObserver]
              · simp [attempt, hl, hn, hg, hs, hc, h0, stopDriver, emit,
                      initState, Event.isRegisterObserver]

/-- C4 (witness): the amended theorem applied at the all-success
environment. -/
theorem C4_amended_witness :
    (verifySetupMain okEnv).1.trace.takeWhile (fun e => !e.isNavigate) =
      [Event.launch, Event.newPage, Event.registerObserver "console",
       Event.registerObserver "pageerror"] ∧
    ((verify_visualization okEnv).1.trace.all fun e => !e.isRegisterObserver) = true :=
  ⟨(C4_amended okEnv).1 rfl rfl, (C4_amended okEnv).2⟩

/-! ## C5: check_visible on absent or hidden elements -/

/-- C5: `check_visible(page, selector)` returns false — it is a total
boolean query, not an error — whenever the selected element is absent
from the DOM or present but hidden. -/
theorem C5_check_visible (dom : Dom) (selector : String)
    (h : dom.present selector = false ∨ dom.hidden selector = true) :
    check_visible dom selector = false := by
  unfold check_visible
  rcases h with h | h <;> simp [h]

/-- C5 (witness): the theorem applied to a DOM in which `#num-a` is absent
and to a DOM in which `.sidebar` is present but hidden. -/
theorem C5_check_visible_witness :
    check_visible { present := fun _ => false, hidden := fun _ => false } "#num-a" = false ∧
    check_visible { present := fun _ => true, hidden := fun _ => true } ".sidebar" = false := by
  constructor
  · exact C5_check_visible { present := fun _ => false, hidden := fun _ => false }
      "#num-a" (Or.inl rfl)
  · exact C5_check_visible { present := fun _ => true, hidden := fun _ => true }
      ".sidebar" (Or.inr rfl)

/-! ## C6: ordering of navigate, checks and captures -/

/-- C6 (counterexample): the claim's strict phase ordering "Navigate
before Check* before Capture*" is false for verify_visualization: in its
successful run the full-page capture (trace position 4) is issued before
the `#demo-svg` element-count DOM check (trace position 5). -/
theorem C6_counterexample :
    (verify_visualization okEnv).1.trace[4]? =
      some (Event.capturePage "verification.png" true) ∧
    (verify_visualization okEnv).1.trace[5]? =
      some (Event.countQuery "#demo-svg") ∧
    (Event.capturePage "verification.png" true).isCapture = true ∧
    (Event.countQuery "#demo-svg").isCheck = true := by
  exact ⟨rfl, rfl, rfl, rfl⟩

/-- C6 (amended): in every run of either script, no DOM check and no
capture call is issued before the navigate call (navigation strictly
precedes all checks and captures). The further ordering "all checks
before all captures" holds for verify_setup's run (after its first
capture no check is issued), but not for verify_visualization, where the
full-page capture precedes the element-count check. -/
theorem C6_amended (env : Env) :
    ((verifySetupMain env).1.trace.takeWhile (fun e => !e.isNavigate)).all
      (fun e => !(e.isCheck || e.isCapture)) = true ∧
    ((verifySetupMain env).1.trace.dropWhile (fun e => !e.isCapture)).all
      (fun e => !e.isCheck) = true ∧
    ((verify_visualization env).1.trace.takeWhile (fun e => !e.isNavigate)).all
      (fun e => !(e.isCheck || e.isCapture)) = true := by
  refine ⟨?_, ?_, ?_⟩
  · unfold verifySetupMain verifySetupBody verify verifyTry registerObservers
    cases hl : env.launchResult with
    | error e =>
      simp [attempt, hl, stopDriver, emit, initState, logLine, List.takeWhile,
            Event.isNavigate, Event.isCheck, Event.isCapture]
    | ok u =>
      cases hn : env.newPageResult with
      | error e =>
        simp [attempt, hl, hn, stopDriver, emit, initState, logLine,
              List.takeWhile, Event.isNavigate, Event.isCheck, Event.isCapture]
      | ok u2 =>
        cases hg : env.gotoResult with
        | error e =>
          simp [attempt, hl, hn, hg, stopDriver, emit, initState, logLine,
                List.takeWhile, Event.isNavigate, Event.isCheck, Event.isCapture]
        | ok u3 =>
          cases hw : env.waitResult with
          | error e =>
            simp [attempt, hl, hn, hg, hw, stopDriver, emit, initState, logLine,
                  List.takeWhile, Event.isNavigate, Event.isCheck, Event.isCapture]
          | ok u4 =>
            cases ht : env.titleResult with
            | error e =>
              simp [attempt, hl, hn, hg, hw, ht, stopDriver, emit, initState,
                    logLine, List.takeWhile, Event.isNavigate, Event.isCheck,
                    Event.isCapture]
            | ok t =>
              cases hsb : env.isVisible ".sidebar" with
              | error e =>
                simp [attempt, hl, hn, hg, hw, ht, hsb, stopDriver, emit,
                      initState, logLine, List.takeWhile, Event.isNavigate,
                      Event.isCheck, Event.isCapture]
              | ok b =>
                cases hsl : env.isVisible "#num-a" with
                | error e =>
                  cases b <;>
                    simp [attempt, hl, hn, hg, hw, ht, hsb, hsl, stopDriver,
                          emit, initState, logLine, List.takeWhile,
                          Event.isNavigate, Event.isCheck, Event.isCapture]
                | ok v =>
                  cases hps : env.pageShot "verification.png" false with
                  | error e =>
                    cases b <;> cases v <;>
                      simp [attempt, hl, hn, hg, hw, ht, hsb, hsl, hps,
                            stopDriver, emit, initState, logLine, List.takeWhile,
                            Event.isNavigate, Event.isCheck, Event.isCapture]
                  | ok d =>
                    cases b <;> cases v <;>
                      simp [attempt, hl, hn, hg, hw, ht, hsb, hsl, hps,
                            stopDriver, emit, initState, logLine, List.takeWhile,
                            Event.isNavigate, Event.isCheck, Event.isCapture]
  · unfold verifySetupMain verifySetupBody verify verifyTry registerObservers
    cases hl : env.launchResult with
    | error e =>
      simp [attempt, hl, stopDriver, emit, initState, logLine, List.dropWhile,
            Event.isCheck, Event.isCapture]
    | ok u =>
      cases hn : env.newPageResult with
      | error e =>
        simp [attempt, hl, hn, stopDriver, emit, initState, logLine,
              List.dropWhile, Event.isCheck, Event.isCapture]
      | ok u2 =>
        cases hg : env.gotoResult with
        | error e =>
          simp [attempt, hl, hn, hg, stopDriver, emit, initState, logLine,
                List.dropWhile, Event.isCheck, Event.isCapture]
        | ok u3 =>
          cases hw : env.waitResult with
          | error e =>
            simp [attempt, hl, hn, hg, hw, stopDriver, emit, initState, logLine,
                  List.dropWhile, Event.isCheck, Event.isCapture]
          | ok u4 =>
            cases ht : env.titleResult with
            | error e =>
              simp [attempt, hl, hn, hg, hw, ht, stopDriver, emit, initState,
                    logLine, List.dropWhile, Event.isCheck, Event.isCapture]
            | ok t =>
              cases hsb : env.isVisible ".sidebar" with
              | error e =>
                simp [attempt, hl, hn, hg, hw, ht, hsb, stopDriver, emit,
                      initState, logLine, List.dropWhile, Event.isCheck,
                      Event.isCapture]
              | ok b =>
                cases hsl : env.isVisible "#num-a" with
                | error e =>
                  cases b <;>
                    simp [attempt, hl, hn, hg, hw, ht, hsb, hsl, stopDriver,
                          emit, initState, logLine, List.dropWhile,
                          Event.isCheck, Event.isCapture]
                | ok v =>
                  cases hps : env.pageShot "verification.png" false with
                  | error e =>
                    cases b <;> cases v <;>
                      simp [attempt, hl, hn, hg, hw, ht, hsb, hsl, hps,
                            stopDriver, emit, initState, logLine,
                            List.dropWhile, Event.isCheck, Event.isCapture]
                  | ok d =>
                    cases b <;> cases v <;>
                      simp [attempt, hl, hn, hg, hw, ht, hsb, hsl, hps,
                            stopDriver, emit, initState, logLine,
                            List.dropWhile, Event.isCheck, Event.isCapture]
  · unfold verify_visualization verifyVisualizationBody
    cases hl : env.launchResult with
    | error e =>
      simp [attempt, hl, stopDriver, emit, initState, List.takeWhile,
            Event.isNavigate, Event.isCheck, Event.isCapture]
    | ok u =>
      cases hn : env.newPageResult with
      | error e =>
        simp [attempt, hl, hn, stopDriver, emit, initState, List.takeWhile,
              Event.isNavigate, Event.isCheck, Event.isCapture]
      | ok u2 =>
        cases hg : env.gotoResult with
        | error e =>
          simp [attempt, hl, hn, hg, stopDriver, emit, initState,
                List.takeWhile, Event.isNavigate, Event.isCheck, Event.isCapture]
        | ok u3 =>
          cases hs : env.pageShot "verification.png" true with
          | error e =>
            simp [attempt, hl, hn, hg, hs, stopDriver, emit, initState,
                  List.takeWhile, Event.isNavigate, Event.isCheck, Event.isCapture]
          | ok d =>
            cases hc : env.countOf "#demo-svg" with
            | error e =>
              simp [attempt, hl, hn, hg, hs, hc, stopDriver, emit, initState,
                    List.takeWhile, Event.isNavigate, Event.isCheck, Event.isCapture]
            | ok n =>
              by_cases h0 : n > 0
              · cases he : env.elemShot "#demo-svg" "verification_svg.png" with
                | error e =>
                  simp [attempt, hl, hn, hg, hs, hc, he, h0, stopDriver, emit,
                        initState, List.takeWhile, Event.isNavigate,
                        Event.isCheck, Event.isCapture]
                | ok d2 =>
                  simp [attempt, hl, hn, hg, hs, hc, he, h0, stopDriver, emit,
                        initState, List.takeWhile, Event.isNavigate,
                        Event.isCheck, Event.isCapture]
              · simp [attempt, hl, hn, hg, hs, hc, h0, stopDriver, emit,
                      initState, List.takeWhile, Event.isNavigate,
                      Event.isCheck, Event.isCapture]

/-! ## C7: the title/slider/screenshot scenario -/

/-- C7: in a run of verify_setup against a reachable page whose title is
"Demo" and whose `#num-a` element is visible (every library call
succeeding, the capture producing non-empty image bytes), the log
contains `Page title: Demo` and `Slider A is visible`, and
verification.png is created with non-empty content. -/
theorem C7_scenario (env : Env) (b : Bool) (d : String)
    (hl : env.launchResult = Except.ok ()) (hn : env.newPageResult = Except.ok ())
    (hg : env.gotoResult = Except.ok ()) (hw : env.waitResult = Except.ok ())
    (ht : env.titleResult = Except.ok "Demo")
    (hsb : env.isVisible ".sidebar" = Except.ok b)
    (hsl : env.isVisible "#num-a" = Except.ok true)
    (hps : env.pageShot "verification.png" false = Except.ok d)
    (hne : d ≠ "") :
    "Page title: Demo" ∈ (verifySetupMain env).1.log ∧
    "Slider A is visible" ∈ (verifySetupMain env).1.log ∧
    ∃ c, getFile (verifySetupMain env).1.files "verification.png" = some c ∧
      c ≠ "" := by
  unfold verifySetupMain verifySetupBody verify verifyTry registerObservers
  refine ⟨?_, ?_, ?_⟩
  · cases b <;>
      simp [attempt, hl, hn, hg, hw, ht, hsb, hsl, hps, stopDriver, emit,
            initState, logLine, getFile, writeFile]
  · cases b <;>
      simp [attempt, hl, hn, hg, hw, ht, hsb, hsl, hps, stopDriver, emit,
            initState, logLine, getFile, writeFile]
  · cases b <;>
      simp [attempt, hl, hn, hg, hw, ht, hsb, hsl, hps, stopDriver, emit,
            initState, logLine, getFile, writeFile] <;>
      exact hne

/-- C7 (witness): the scenario theorem applied at the all-success
environment, whose screenshot bytes are "PNG". -/
theorem C7_scenario_witness :
    "Page title: Demo" ∈ (verifySetupMain okEnv).1.log ∧
    "Slider A is visible" ∈ (verifySetupMain okEnv).1.log ∧
    ∃ c, getFile (verifySetupMain okEnv).1.files "verification.png" = some c ∧
      c ≠ "" :=
  C7_scenario okEnv true "PNG" rfl rfl rfl rfl rfl rfl rfl rfl (by decide)

/-! ## C8: captures are page-level or element-scoped, at fixed paths -/

/-- C8: every screenshot either script captures is a page-level capture or
is scoped to a single DOM element; page-level captures are written to the
fixed relative path verification.png and element-scoped captures to
verification_svg.png, and a write to an existing path overwrites it. -/
theorem C8_captures (env : Env) :
    ((verifySetupMain env).1.trace.all Event.captureWellNamed) = true ∧
    ((verify_visualization env).1.trace.all Event.captureWellNamed) = true ∧
    ∀ fs p c, getFile (writeFile fs p c) p = some c := by
  refine ⟨?_, ?_, ?_⟩
  · unfold verifySetupMain verifySetupBody verify verifyTry registerObservers
    cases hl : env.launchResult with
    | error e =>
      simp [attempt, hl, stopDriver, emit, initState, logLine,
            Event.captureWellNamed]
    | ok u =>
      cases hn : env.newPageResult with
      | error e =>
        simp [attempt, hl, hn, stopDriver, emit, initState, logLine,
              Event.captureWellNamed]
      | ok u2 =>
        cases hg : env.gotoResult with
        | error e =>
          simp [attempt, hl, hn, hg, stopDriver, emit, initState, logLine,
                Event.captureWellNamed]
        | ok u3 =>
          cases hw : env.waitResult with
          | error e =>
            simp [attempt, hl, hn, hg, hw, stopDriver, emit, initState, logLine,
                  Event.captureWellNamed]
          | ok u4 =>
            cases ht : env.titleResult with
            | error e =>
              simp [attempt, hl, hn, hg, hw, ht, stopDriver, emit, initState,
                    logLine, Event.captureWellNamed]
            | ok t =>
              cases hsb : env.isVisible ".sidebar" with
              | error e =>
                simp [attempt, hl, hn, hg, hw, ht, hsb, stopDriver, emit,
                      initState, logLine, Event.captureWellNamed]
              | ok b =>
                cases hsl : env.isVisible "#num-a" with
                | error e =>
                  cases b <;>
                    simp [attempt, hl, hn, hg, hw, ht, hsb, hsl, stopDriver,
                          emit, initState, logLine, Event.captureWellNamed]
                | ok v =>
                  cases hps : env.pageShot "verification.png" false with
                  | error e =>
                    cases b <;> cases v <;>
                      simp [attempt, hl, hn, hg, hw, ht, hsb, hsl, hps,
                            stopDriver, emit, initState, logLine,
                            Event.captureWellNamed]
                  | ok d =>
                    cases b <;> cases v <;>
                      simp [attempt, hl, hn, hg, hw, ht, hsb, hsl, hps,
                            stopDriver, emit, initState, logLine,
                            Event.captureWellNamed]
  · unfold verify_visualization verifyVisualizationBody
    cases hl : env.launchResult with
    | error e =>
      simp [attempt, hl, stopDriver, emit, initState, Event.captureWellNamed]
    | ok u =>
      cases hn : env.newPageResult with
      | error e =>
        simp [attempt, hl, hn, stopDriver, emit, initState,
              Event.captureWellNamed]
      | ok u2 =>
        cases hg : env.gotoResult with
        | error e =>
          simp [attempt, hl, hn, hg, stopDriver, emit, initState,
                Event.captureWellNamed]
        | ok u3 =>
          cases hs : env.pageShot "verification.png" true with
          | error e =>
            simp [attempt, hl, hn, hg, hs, stopDriver, emit, initState,
                  Event.captureWellNamed]
          | ok d =>
            cases hc : env.countOf "#demo-svg" with
            | error e =>
              simp [attempt, hl, hn, hg, hs, hc, stopDriver, emit, initState,
                    Event.captureWellNamed]
            | ok n =>
              by_cases h0 : n > 0
              · cases he : env.elemShot "#demo-svg" "verification_svg.png" with
                | error e =>
                  simp [attempt, hl, hn, hg, hs, hc, he, h0, stopDriver, emit,
                        initState, Event.captureWellNamed]
                | ok d2 =>
                  simp [attempt, hl, hn, hg, hs, hc, he, h0, stopDriver, emit,
                        initState, Event.captureWellNamed]
              · simp [attempt, hl, hn, hg, hs, hc, h0, stopDriver, emit,
                      initState, Event.captureWellNamed]
  · intro fs p c
    simp [getFile, writeFile]

/-! ## C9: files written before a failure survive it -/

/-- C9: no cleanup on failure. In verify_setup, the exception handler only
prints: the files on disk after a caught failure are exactly the files at
the moment the exception was raised. In verify_visualization, once the
full-page screenshot has been written to verification.png, that file and
its content survive to the end of the run no matter how the remaining
steps fare — no later step removes or rewrites it. -/
theorem C9_preserve (env : Env) (s : RunState) (d : String) :
    (∀ e, (verifyTry env (registerObservers s)).2 = some e →
      (verify env s).1.files = (verifyTry env (registerObservers s)).1.files) ∧
    (env.launchResult = Except.ok () → env.newPageResult = Except.ok () →
      env.gotoResult = Except.ok () →
      env.pageShot "verification.png" true = Except.ok d →
      getFile (verify_visualization env).1.files "verification.png" = some d) := by
  constructor
  · intro e he
    rcases hv : verifyTry env (registerObservers s) with ⟨s1, o⟩
    rw [hv] at he
    cases o with
    | none => simp at he
    | some e1 => simp [verify, hv, logLine]
  · intro hl hn hg hs
    unfold verify_visualization verifyVisualizationBody
    cases hc : env.countOf "#demo-svg" with
    | error e =>
      simp [attempt, hl, hn, hg, hs, hc, stopDriver, emit, initState,
            getFile, writeFile]
    | ok n =>
      by_cases h0 : n > 0
      · cases he : env.elemShot "#demo-svg" "verification_svg.png" with
        | error e =>
          simp [attempt, hl, hn, hg, hs, hc, he, h0, stopDriver, emit,
                initState, getFile, writeFile]
        | ok d2 =>
          simp [attempt, hl, hn, hg, hs, hc, he, h0, stopDriver, emit,
                initState, getFile, writeFile]
      · simp [attempt, hl, hn, hg, hs, hc, h0, stopDriver, emit, initState,
              getFile, writeFile]

/-- C9 (witness): the handler-preserves-files part applied at the
unreachable-page run, and the screenshot-survival part applied at the
all-success run. -/
theorem C9_preserve_witness :
    (verify envUnreachable initState).1.files =
      (verifyTry envUnreachable (registerObservers initState)).1.files ∧
    getFile (verify_visualization okEnv).1.files "verification.png" = some "PNG" := by
  exact ⟨(C9_preserve envUnreachable initState "PNG").1 "net::ERR_CONNECTION_REFUSED" rfl,
         (C9_preserve okEnv initState "PNG").2 rfl rfl rfl rfl⟩

/-! ## C10: the slider check logs only the visible outcome -/

/-- C10: in a verify_setup run that reaches the end of its try-block, the
log is exactly the title line, then one sidebar line — present for both
the visible and the not-visible outcome — then `Slider A is visible` only
when `#num-a` is visible: when `#num-a` is absent or hidden the slider
check contributes no log line at all. -/
theorem C10_slider_logging (env : Env) (t d : String) (b v : Bool)
    (hl : env.launchResult = Except.ok ()) (hn : env.newPageResult = Except.ok ())
    (hg : env.gotoResult = Except.ok ()) (hw : env.waitResult = Except.ok ())
    (ht : env.titleResult = Except.ok t)
    (hsb : env.isVisible ".sidebar" = Except.ok b)
    (hsl : env.isVisible "#num-a" = Except.ok v)
    (hps : env.pageShot "verification.png" false = Except.ok d) :
    (verifySetupMain env).1.log =
      ["Page title: " ++ t,
       if b then "Sidebar is visible" else "Sidebar is NOT visible"] ++
      (if v then ["Slider A is visible"] else []) := by
  unfold verifySetupMain verifySetupBody verify verifyTry registerObservers
  cases b <;> cases v <;>
    simp [attempt, hl, hn, hg, hw, ht, hsb, hsl, hps, stopDriver, emit,
          initState, logLine]

/-- C10 (witness): the theorem applied at the all-success environment
(slider visible: three log lines) and at the hidden-slider environment
(slider not visible: the slider contributes no line, while the sidebar
still contributes its line). -/
theorem C10_slider_logging_witness :
    (verifySetupMain okEnv).1.log =
      ["Page title: Demo", "Sidebar is visible", "Slider A is visible"] ∧
    (verifySetupMain envHiddenSlider).1.log =
      ["Page title: Demo", "Sidebar is visible"] := by
  constructor
  · have h := C10_slider_logging okEnv "Demo" "PNG" true true
      rfl rfl rfl rfl rfl rfl rfl rfl
    simpa using h
  · have h := C10_slider_logging envHiddenSlider "Demo" "PNG" true false
      rfl rfl rfl rfl rfl rfl rfl rfl
    simpa using h
